import Mathlib

/-!
Shallow embedding of the mini-Wave_Gen Arduino sketch
(src/v01 - Arduino nano/Arduino/mini_Wave_Gen-v01/mini_Wave_Gen-v01.ino).

Modelling conventions:
* C `float` arithmetic is modelled exactly over `ℚ`.  Every float value the
  verified claims depend on (integer frequencies, the multipliers 10 and 1,
  the clamp bounds 568/1, 568/2, 568/4, 568/8, the products inside
  `update_freq` at the inputs of interest) is either exactly representable
  or rounds identically, so the rational model and the float code agree on
  each concrete evaluation performed below.
* C casts from a floating value to an unsigned/signed integer truncate
  toward zero; they are modelled by `truncQ`.
* The per-sample floating computation inside `wave_calc` (the `sin`-based,
  ramp, square and DC formulas of lines 562-592, each ending in an
  `(int32_t)` cast) is abstracted as a function `temp : ℕ → ℤ` giving, for
  each sample index, the integer produced by that cast.  The claims about
  `wave_calc` treated here (clamping and the frame condition) are proved for
  every such function, hence for every waveform kind, amplitude and offset.
* Machine integers are modelled as `ℕ`/`ℤ` with explicit `% 2 ^ w` where the
  code can overflow (the `uint16_t` left shift in the sample-count editor).
-/

attribute [local semireducible] Rat.add Rat.mul Rat.inv Rat.sub

set_option maxRecDepth 16384

namespace MiniWaveGen

/-- Truncation toward zero of a rational, the semantics of C casts from a
floating value to an integer type (for values representable in the target
type). -/
def truncQ (q : ℚ) : ℤ := Int.tdiv q.num q.den

/-- Source line 46: measured DAC reference voltage, `Vref = 4.975`. -/
def Vref : ℚ := 4975 / 1000

/-- Source line 47: empirical timing compensation, `time_compensation = 0.985`. -/
def time_compensation : ℚ := 985 / 1000

/-- Source line 119: `const uint16_t freq_max = 568`. -/
def freq_max : ℕ := 568

/-- Source line 55: `const unsigned int buffer_size = 128`. -/
def buffer_size : ℕ := 128

/-- Source line 97: state `RUNNING = 0`. -/
def RUNNING : ℕ := 0

/-- Source line 98: state `CONFIGURING = 1`. -/
def CONFIGURING : ℕ := 1

/-- Source line 99: state `CALCULATING = 2`. -/
def CALCULATING : ℕ := 2

/-- Source line 156: waveform `SINE = 0`. -/
def SINE : ℕ := 0

/-- Source line 156: waveform `RAMP = 1`. -/
def RAMP : ℕ := 1

/-- Source line 156: waveform `SQUARE = 2`. -/
def SQUARE : ℕ := 2

/-- Source line 156: waveform `DC = 3`. -/
def DC : ℕ := 3

/-- The global mutable state of the sketch that the verified claims touch:
the two switch counters (lines 91-92), the selected waveform (line 182), the
four user parameters `wave_parameters[4]` (line 117, indices FREQ, AMPLITUDE,
OFFSET, SAMPLES), the 128-entry sample buffer `wave` (line 116), the cached
integer sample count `samples_uint` (line 122) and the derived
`sample_interval` (line 118). -/
structure SysState where
  SW1_state : ℕ
  SW2_state : ℕ
  waveform : ℕ
  freq : ℚ
  amplitude : ℚ
  offset : ℚ
  samples : ℚ
  wave : List ℤ
  samples_uint : ℕ
  sample_interval : ℤ
deriving DecidableEq

/-- Lines 594-605 of `wave_calc`: the computed `temp` is saturated into
[0, 4095] before being stored in the buffer. -/
def clamp_code (temp : ℤ) : ℤ :=
  if temp > 4095 then 4095
  else if temp < 0 then 0
  else temp

/-- Lines 560-609: the sample-writing loop of `wave_calc`.  For each index
`i < points` the integer value `temp i` of the per-sample float computation
(see the header comment) is clamped and stored at index `i`; no other index
of the buffer is touched. -/
def wave_calc (temp : ℕ → ℤ) (buf : List ℤ) (points : ℕ) : List ℤ :=
  (List.range points).foldl (fun b i => b.set i (clamp_code (temp i))) buf

/-- Lines 619-641, `read_Encoder`, as a pure function of
(previous clock level, current clock level, current data level), returning
the signed step together with the stored new previous-clock level
(`encoder_A_prev = encoder_A`). -/
def read_Encoder (encoder_A_prev encoder_A encoder_B : Bool) : ℤ × Bool :=
  let value : ℤ := 0
  let value :=
    if (!encoder_A) && encoder_A_prev then
      if encoder_B then value + 1 else value - 1
    else value
  (value, encoder_A)

/-- Lines 647-655, `update_freq`: the sample interval in microseconds,
`(uint32_t)(1/freq / samples * 1000000 * time_compensation)`.  The final
cast truncates toward zero. -/
def update_freq (freq samples : ℚ) : ℤ :=
  truncQ (1 / freq / samples * 1000000 * time_compensation)

/-- Interval formula exactly as §4.5 of the spec words it, with `round`
instead of the code's truncating cast; used to compare code against spec. -/
def update_freq_spec_round (freq samples : ℚ) : ℤ :=
  round (1 / freq / samples * 1000000 * time_compensation)

/-- Lines 449-464, `case 9` of the field editor: the sample count is read
through a `(uint16_t)` cast, doubled on step +1 (a `uint16_t` shift, hence
modulo 2^16), halved on step −1, then masked with `0xF0`. -/
def field9_update (samples : ℕ) (enc : ℤ) : ℕ :=
  let aux := samples % 65536
  let aux :=
    if enc = 1 then (aux <<< 1) % 65536
    else if enc = -1 then aux >>> 1
    else aux
  aux &&& 0xF0

/-- Lines 327-335: the frequency clamp of the periodic saturation pass.
The guard compares `(uint16_t)freq` against the integer division
`freq_max / ((uint16_t)samples >> 4)`; the assignment stores the float
division `(float)freq_max / ((uint16_t)samples >> 4)`. -/
def sat_freq (s : SysState) : SysState :=
  let sdiv : ℕ := (truncQ s.samples).toNat >>> 4
  if truncQ s.freq > ((freq_max / sdiv : ℕ) : ℤ) then
    { s with freq := (freq_max : ℚ) / (sdiv : ℚ) }
  else if s.freq < 0 then { s with freq := 1 }
  else s

/-- Lines 337-345: the amplitude clamp of the periodic saturation pass. -/
def sat_amplitude (s : SysState) : SysState :=
  if s.amplitude > Vref then { s with amplitude := Vref }
  else if s.amplitude < 0 then { s with amplitude := 0 }
  else s

/-- Lines 347-355: the offset clamp of the periodic saturation pass. -/
def sat_offset (s : SysState) : SysState :=
  if s.offset > Vref then { s with offset := Vref }
  else if s.offset < 0 then { s with offset := 0 }
  else s

/-- Lines 357-361: the sample-count clamp of the periodic saturation pass. -/
def sat_samples (s : SysState) : SysState :=
  if s.samples < 16 then { s with samples := 16 } else s

/-- Lines 327-361: the full periodic saturation pass executed every 500 ms
while CONFIGURING, in source order. -/
def saturation_pass (s : SysState) : SysState :=
  sat_samples (sat_offset (sat_amplitude (sat_freq s)))

/-- Lines 387-468: one execution of the field-editor `switch (SW2_state)`
with the decoder step `enc` (the value returned by `read_Encoder`).  The
multiplier values 1, 10, 1, 1, 0.1, 0.01, 1, 0.1, 0.01, 1 are the
`multipliers` table of lines 165-177, inlined.  In `case 0` the C
expression `(waveform + 1*enc) & 0x03` is two's-complement masking of an
`int`, which for a mask of `0x03` equals the nonnegative remainder mod 4. -/
def configuring_step (s : SysState) (enc : ℤ) : SysState :=
  match s.SW2_state with
  | 0 => { s with waveform := (((s.waveform : ℤ) + 1 * enc) % 4).toNat }
  | 1 =>
    let s := { s with freq := s.freq + 10 * enc }
    if s.waveform = DC then { s with SW2_state := 6 } else s
  | 2 => { s with freq := s.freq + 1 * enc }
  | 3 => { s with amplitude := s.amplitude + 1 * enc }
  | 4 => { s with amplitude := s.amplitude + (1 / 10) * enc }
  | 5 => { s with amplitude := s.amplitude + (1 / 100) * enc }
  | 6 => { s with offset := s.offset + 1 * enc }
  | 7 => { s with offset := s.offset + (1 / 10) * enc }
  | 8 => { s with offset := s.offset + (1 / 100) * enc }
  | 9 => { s with samples := (field9_update (truncQ s.samples).toNat enc : ℚ) }
  | _ => { s with SW2_state := 0 }

/-- Lines 471-498: the CALCULATING branch of `loop`.  `samples_uint` is set
from the float parameter through a `(uint16_t)` cast, one of the four
identical `wave_calc` calls regenerates the buffer according to the
waveform kind, `update_freq` recomputes the interval, and the mode returns
to RUNNING with `SW2_state = 0`.  The argument `temp_of` gives, for
(waveform kind, amplitude, offset, points), the abstracted per-sample
integer computation passed to `wave_calc` (see the header comment). -/
def loop_calculating (temp_of : ℕ → ℚ → ℚ → ℕ → ℕ → ℤ) (s : SysState) : SysState :=
  let su := (truncQ s.samples).toNat
  let w :=
    if s.waveform = SINE then
      wave_calc (temp_of s.waveform s.amplitude s.offset su) s.wave su
    else if s.waveform = RAMP then
      wave_calc (temp_of s.waveform s.amplitude s.offset su) s.wave su
    else if s.waveform = SQUARE then
      wave_calc (temp_of s.waveform s.amplitude s.offset su) s.wave su
    else if s.waveform = DC then
      wave_calc (temp_of s.waveform s.amplitude s.offset su) s.wave su
    else s.wave
  { s with
    samples_uint := su
    wave := w
    sample_interval := update_freq s.freq s.samples
    SW1_state := RUNNING
    SW2_state := 0 }

/-- Line 308: the Sample Scheduler's buffer lookup
`wave[i & (samples_uint - 1)]`. -/
def scheduler_sample (buf : List ℤ) (samples i : ℕ) : ℤ :=
  buf.getD (i &&& (samples - 1)) 0

/-! Support lemmas about the modelled casts. -/

theorem truncQ_eq_floor (q : ℚ) (hq : 0 ≤ q) : truncQ q = ⌊q⌋ := by
  rw [truncQ, Int.tdiv_eq_ediv (Rat.num_nonneg.mpr hq) (Int.natCast_nonneg q.den),
    Rat.floor_def]

theorem truncQ_intCast (k : ℤ) : truncQ (k : ℚ) = k := by
  rw [truncQ, Rat.num_intCast, Rat.den_intCast, Int.natCast_one, Int.tdiv_one]

theorem truncQ_natCast (n : ℕ) : truncQ (n : ℚ) = n := by
  rw [truncQ, Rat.num_natCast, Rat.den_natCast, Int.natCast_one, Int.tdiv_one]

/-! Support lemmas about the sample-writing loop of wave_calc. -/

theorem wave_calc_succ (temp : ℕ → ℤ) (buf : List ℤ) (points : ℕ) :
    wave_calc temp buf (points + 1) =
      (wave_calc temp buf points).set points (clamp_code (temp points)) := by
  simp [wave_calc, List.range_succ]

theorem wave_calc_length (temp : ℕ → ℤ) (buf : List ℤ) (points : ℕ) :
    (wave_calc temp buf points).length = buf.length := by
  induction points with
  | zero => rfl
  | succ n ih => rw [wave_calc_succ, List.length_set, ih]

theorem wave_calc_get_lt (temp : ℕ → ℤ) (buf : List ℤ) (points i : ℕ)
    (hi : i < points) (hp : points ≤ buf.length) :
    (wave_calc temp buf points)[i]? = some (clamp_code (temp i)) := by
  induction points with
  | zero => omega
  | succ n ih =>
    rw [wave_calc_succ]
    rcases Nat.lt_succ_iff_lt_or_eq.mp hi with h | rfl
    · rw [List.getElem?_set_ne (by omega)]
      exact ih h (by omega)
    · rw [List.getElem?_set_eq_of_lt]
      rw [wave_calc_length]
      omega

theorem wave_calc_get_ge (temp : ℕ → ℤ) (buf : List ℤ) (points j : ℕ)
    (hj : points ≤ j) :
    (wave_calc temp buf points)[j]? = buf[j]? := by
  induction points with
  | zero => rfl
  | succ n ih =>
    rw [wave_calc_succ, List.getElem?_set_ne (by omega)]
    exact ih (by omega)

theorem clamp_code_mem (t : ℤ) :
    0 ≤ clamp_code t ∧ clamp_code t ≤ 4095 ∧
    (4095 < t → clamp_code t = 4095) ∧ (t < 0 → clamp_code t = 0) := by
  unfold clamp_code
  split
  · omega
  · split <;> omega

/-- C1: for every waveform kind, sample count, amplitude and offset — here
abstracted as an arbitrary per-sample integer computation `temp` — every
entry stored by `wave_calc` is the saturation of the raw value into
[0, 4095]: values above 4095 are stored as 4095, values below 0 as 0. -/
theorem wave_calc_stores_clamped (temp : ℕ → ℤ) (buf : List ℤ) (points i : ℕ)
    (hi : i < points) (hp : points ≤ buf.length) :
    (wave_calc temp buf points)[i]? = some (clamp_code (temp i)) ∧
    0 ≤ clamp_code (temp i) ∧ clamp_code (temp i) ≤ 4095 ∧
    (4095 < temp i → clamp_code (temp i) = 4095) ∧
    (temp i < 0 → clamp_code (temp i) = 0) :=
  ⟨wave_calc_get_lt temp buf points i hi hp, clamp_code_mem (temp i)⟩

/-- Witness for C1 at sample count 16, entry 13, a raw computation whose
value at 13 is −200, stored as 0. -/
theorem wave_calc_stores_clamped_witness :
    13 < 16 ∧ 16 ≤ (List.replicate 128 (0 : ℤ)).length ∧
    ((wave_calc (fun k => 5000 - 400 * (k : ℤ)) (List.replicate 128 (0 : ℤ)) 16)[13]? =
        some (clamp_code ((fun k => 5000 - 400 * (k : ℤ)) 13)) ∧
      0 ≤ clamp_code ((fun k => 5000 - 400 * (k : ℤ)) 13) ∧
      clamp_code ((fun k => 5000 - 400 * (k : ℤ)) 13) ≤ 4095 ∧
      (4095 < (fun k => 5000 - 400 * (k : ℤ)) 13 →
        clamp_code ((fun k => 5000 - 400 * (k : ℤ)) 13) = 4095) ∧
      ((fun k => 5000 - 400 * (k : ℤ)) 13 < 0 →
        clamp_code ((fun k => 5000 - 400 * (k : ℤ)) 13) = 0)) :=
  ⟨by decide, by decide,
    wave_calc_stores_clamped (fun k => 5000 - 400 * (k : ℤ))
      (List.replicate 128 (0 : ℤ)) 16 13 (by decide) (by decide)⟩

/-- C10: a `wave_calc` call with `points ≤ 128` on the 128-entry buffer
writes only indices 0..points−1; every index in [points, 128) keeps the
value it had before the call, so after a sample-count reduction the tail of
the physical buffer still holds the previous configuration's samples. -/
theorem wave_calc_frame (temp : ℕ → ℤ) (buf : List ℤ) (points j : ℕ)
    (hbuf : buf.length = 128) (hp : points ≤ 128) (hj1 : points ≤ j) (hj2 : j < 128) :
    (wave_calc temp buf points).length = 128 ∧
    (wave_calc temp buf points)[j]? = buf[j]? :=
  ⟨by rw [wave_calc_length, hbuf], wave_calc_get_ge temp buf points j hj1⟩

/-- Witness for C10: shrinking to 16 samples leaves entry 100 of the
128-entry buffer at its old value 7. -/
theorem wave_calc_frame_witness :
    (List.replicate 128 (7 : ℤ)).length = 128 ∧ 16 ≤ 128 ∧ 16 ≤ 100 ∧ 100 < 128 ∧
    ((wave_calc (fun k => 5000 - 400 * (k : ℤ)) (List.replicate 128 (7 : ℤ)) 16).length = 128 ∧
      (wave_calc (fun k => 5000 - 400 * (k : ℤ)) (List.replicate 128 (7 : ℤ)) 16)[100]? =
        (List.replicate 128 (7 : ℤ))[100]?) :=
  ⟨by decide, by decide, by decide, by decide,
    wave_calc_frame (fun k => 5000 - 400 * (k : ℤ)) (List.replicate 128 (7 : ℤ)) 16 100
      (by decide) (by decide) (by decide) (by decide)⟩

/-- C2: evaluation of the field-9 sample-count update at the two boundary
inputs.  Halving the minimum count 16 gives 8, and 8 & 0xF0 = 0; doubling
the maximum count 128 gives 256, and 256 & 0xF0 = 0.  Both land below 16,
refuting the claim that the update never leaves [16, 128]. -/
theorem field9_boundary : field9_update 16 (-1) = 0 ∧ field9_update 128 1 = 0 := by
  decide

/-- C3: a frequency of exactly 0 — reachable from the initial 50 Hz by five
−10 steps on edit field 1 — survives the periodic saturation pass unchanged,
because the pass only replaces frequencies that are strictly negative.  The
stored frequency is therefore not strictly positive and `update_freq` can be
reached with a zero divisor. -/
theorem saturation_keeps_zero_freq :
    (configuring_step (configuring_step (configuring_step (configuring_step
        (configuring_step ⟨1, 1, 0, 50, 4975 / 1000, 4975 / 2000, 32, [], 0, 0⟩
          (-1)) (-1)) (-1)) (-1)) (-1)).freq = 0 ∧
    (saturation_pass ⟨1, 1, 0, 0, 4975 / 1000, 4975 / 2000, 32, [], 0, 0⟩).freq = 0 := by
  decide

/-- C7: the Sample Scheduler's bitmask lookup `wave[i & (samples − 1)]`
agrees with `wave[i % samples]` for every free-running index and every
sample count in {16, 32, 64, 128}. -/
theorem scheduler_mask_eq_mod (buf : List ℤ) (samples i : ℕ)
    (h : samples = 16 ∨ samples = 32 ∨ samples = 64 ∨ samples = 128) :
    scheduler_sample buf samples i = buf.getD (i % samples) 0 := by
  unfold scheduler_sample
  rcases h with rfl | rfl | rfl | rfl
  · have h4 := Nat.and_pow_two_sub_one_eq_mod i 4
    norm_num at h4
    rw [h4]
  · have h5 := Nat.and_pow_two_sub_one_eq_mod i 5
    norm_num at h5
    rw [h5]
  · have h6 := Nat.and_pow_two_sub_one_eq_mod i 6
    norm_num at h6
    rw [h6]
  · have h7 := Nat.and_pow_two_sub_one_eq_mod i 7
    norm_num at h7
    rw [h7]

/-- Witness for C7 at sample count 16 and index 17: the lookup resolves to
entry 17 % 16 = 1 of the table, the second pass over the buffer. -/
theorem scheduler_mask_eq_mod_witness :
    ((16 : ℕ) = 16 ∨ (16 : ℕ) = 32 ∨ (16 : ℕ) = 64 ∨ (16 : ℕ) = 128) ∧
    scheduler_sample ((List.range 16).map Int.ofNat) 16 17 =
      ((List.range 16).map Int.ofNat).getD (17 % 16) 0 :=
  ⟨by decide, scheduler_mask_eq_mod ((List.range 16).map Int.ofNat) 16 17 (by decide)⟩

/-- C8: the quadrature decoder returns +1 exactly on a falling clock
transition (previous level high, current low) with the data line high, −1
exactly on such a transition with the data line low, 0 whenever there is no
falling transition, and it always stores the current clock level as the new
previous-clock level. -/
theorem read_Encoder_spec :
    ∀ prev a b : Bool,
      ((read_Encoder prev a b).1 = 1 ↔ prev = true ∧ a = false ∧ b = true) ∧
      ((read_Encoder prev a b).1 = -1 ↔ prev = true ∧ a = false ∧ b = false) ∧
      (¬(prev = true ∧ a = false) → (read_Encoder prev a b).1 = 0) ∧
      (read_Encoder prev a b).2 = a := by
  decide

/-- Witness for C8: a falling clock transition with the data line high
yields step +1 and previous-clock level low. -/
theorem read_Encoder_spec_witness :
    ((read_Encoder true false true).1 = 1 ↔ true = true ∧ false = false ∧ true = true) ∧
    ((read_Encoder true false true).1 = -1 ↔ true = true ∧ false = false ∧ true = false) ∧
    (¬(true = true ∧ false = false) → (read_Encoder true false true).1 = 0) ∧
    (read_Encoder true false true).2 = false :=
  read_Encoder_spec true false true

/-- C4 counterexample: with the waveform set to DC, an editor iteration at
field 1 with step +1 does set the cursor to 6, but it does not leave the
frequency unchanged: the increment `freq += 10*enc` on line 398 runs before
the DC redirect on lines 400-403, so the frequency moves from 50 to 60. -/
theorem dc_redirect_cex :
    (configuring_step ⟨1, 1, 3, 50, 4975 / 1000, 4975 / 2000, 32, [], 0, 0⟩ 1).SW2_state = 6 ∧
    (configuring_step ⟨1, 1, 3, 50, 4975 / 1000, 4975 / 2000, 32, [], 0, 0⟩ 1).freq ≠ 50 := by
  decide

/-- C4 amended: an editor iteration at field 1 while the kind is DC always
sets the cursor to 6, but first applies the field-1 frequency increment:
the frequency becomes freq + 10·step (unchanged only when step = 0); the
other parameters and the waveform kind are untouched. -/
theorem dc_redirect_amended (s : SysState) (enc : ℤ)
    (h1 : s.SW2_state = 1) (h2 : s.waveform = DC) :
    (configuring_step s enc).SW2_state = 6 ∧
    (configuring_step s enc).freq = s.freq + 10 * enc ∧
    (configuring_step s enc).amplitude = s.amplitude ∧
    (configuring_step s enc).offset = s.offset ∧
    (configuring_step s enc).samples = s.samples ∧
    (configuring_step s enc).waveform = s.waveform := by
  rcases s with ⟨sw1, sw2, wf, f, a, o, sm, w, su, si⟩
  simp only at h1 h2
  subst h1 h2
  simp [configuring_step]

/-- Witness for C4 amended: DC kind, field 1, step −1 moves the frequency
from 50 to 40 and the cursor to 6. -/
theorem dc_redirect_amended_witness :
    (SysState.mk 1 1 DC 50 (4975 / 1000) (4975 / 2000) 32 [] 0 0).SW2_state = 1 ∧
    (SysState.mk 1 1 DC 50 (4975 / 1000) (4975 / 2000) 32 [] 0 0).waveform = DC ∧
    ((configuring_step (SysState.mk 1 1 DC 50 (4975 / 1000) (4975 / 2000) 32 [] 0 0)
        (-1)).SW2_state = 6 ∧
      (configuring_step (SysState.mk 1 1 DC 50 (4975 / 1000) (4975 / 2000) 32 [] 0 0)
          (-1)).freq =
        (SysState.mk 1 1 DC 50 (4975 / 1000) (4975 / 2000) 32 [] 0 0).freq + 10 * (-1) ∧
      (configuring_step (SysState.mk 1 1 DC 50 (4975 / 1000) (4975 / 2000) 32 [] 0 0)
          (-1)).amplitude =
        (SysState.mk 1 1 DC 50 (4975 / 1000) (4975 / 2000) 32 [] 0 0).amplitude ∧
      (configuring_step (SysState.mk 1 1 DC 50 (4975 / 1000) (4975 / 2000) 32 [] 0 0)
          (-1)).offset =
        (SysState.mk 1 1 DC 50 (4975 / 1000) (4975 / 2000) 32 [] 0 0).offset ∧
      (configuring_step (SysState.mk 1 1 DC 50 (4975 / 1000) (4975 / 2000) 32 [] 0 0)
          (-1)).samples =
        (SysState.mk 1 1 DC 50 (4975 / 1000) (4975 / 2000) 32 [] 0 0).samples ∧
      (configuring_step (SysState.mk 1 1 DC 50 (4975 / 1000) (4975 / 2000) 32 [] 0 0)
          (-1)).waveform =
        (SysState.mk 1 1 DC 50 (4975 / 1000) (4975 / 2000) 32 [] 0 0).waveform) :=
  ⟨by decide, by decide,
    dc_redirect_amended (SysState.mk 1 1 DC 50 (4975 / 1000) (4975 / 2000) 32 [] 0 0)
      (-1) (by decide) (by decide)⟩

/-- The floor of a rational is its rounding, or its rounding minus one. -/
theorem floor_eq_round_or (x : ℚ) : ⌊x⌋ = round x ∨ ⌊x⌋ = round x - 1 := by
  rw [round_eq]
  have h1 : ⌊x⌋ ≤ ⌊x + 1 / 2⌋ := Int.floor_mono (by linarith)
  have h2 : ⌊x + 1 / 2⌋ < ⌊x⌋ + 2 := by
    have hx := Int.lt_floor_add_one x
    refine Int.floor_lt.mpr ?_
    push_cast
    linarith
  omega

/-- C5 counterexample: at frequency 50 Hz and 32 samples the exact value of
the interval expression is 615.625 µs; the code's `(uint32_t)` cast stores
615 while the claimed rounding would give 616. -/
theorem update_freq_round_cex :
    update_freq 50 32 = 615 ∧ update_freq_spec_round 50 32 = 616 ∧
    update_freq 50 32 ≠ update_freq_spec_round 50 32 := by
  decide

/-- C5 amended: for positive frequency and sample count, `update_freq`
produces the floor (truncation toward zero of a nonnegative value) of
(1/f)/N·1000000·0.985, which equals the claimed rounded value or that value
minus one. -/
theorem update_freq_trunc (freq samples : ℚ) (hf : 0 < freq) (hs : 0 < samples) :
    update_freq freq samples = ⌊1 / freq / samples * 1000000 * time_compensation⌋ ∧
    (update_freq freq samples = update_freq_spec_round freq samples ∨
      update_freq freq samples = update_freq_spec_round freq samples - 1) := by
  have h2 : (0 : ℚ) ≤ 1 / freq / samples :=
    le_of_lt (div_pos (one_div_pos.mpr hf) hs)
  have h3 : (0 : ℚ) ≤ time_compensation := by norm_num [time_compensation]
  have hx : (0 : ℚ) ≤ 1 / freq / samples * 1000000 * time_compensation :=
    mul_nonneg (mul_nonneg h2 (by norm_num)) h3
  refine ⟨by rw [update_freq, truncQ_eq_floor _ hx], ?_⟩
  rw [update_freq, update_freq_spec_round, truncQ_eq_floor _ hx]
  exact floor_eq_round_or _

/-- Witness for C5 amended at 50 Hz, 32 samples. -/
theorem update_freq_trunc_witness :
    (0 : ℚ) < 50 ∧ (0 : ℚ) < 32 ∧
    (update_freq 50 32 = ⌊1 / (50 : ℚ) / 32 * 1000000 * time_compensation⌋ ∧
      (update_freq 50 32 = update_freq_spec_round 50 32 ∨
        update_freq 50 32 = update_freq_spec_round 50 32 - 1)) :=
  ⟨by norm_num, by norm_num, update_freq_trunc 50 32 (by norm_num) (by norm_num)⟩

/-! The amplitude, offset and sample-count clamps never touch the
frequency parameter. -/

theorem sat_amplitude_freq (s : SysState) : (sat_amplitude s).freq = s.freq := by
  unfold sat_amplitude
  split
  · rfl
  · split <;> rfl

theorem sat_offset_freq (s : SysState) : (sat_offset s).freq = s.freq := by
  unfold sat_offset
  split
  · rfl
  · split <;> rfl

theorem sat_samples_freq (s : SysState) : (sat_samples s).freq = s.freq := by
  unfold sat_samples
  split <;> rfl

/-- C6 counterexample: with sampleCount = 128 the requested frequency
71.5 Hz is greater than 71 but is not clamped: the guard compares the
`(uint16_t)` truncation 71 against the bound 71, which is not strictly
greater, so 71.5 survives the saturation pass. -/
theorem freq_clamp_fractional_cex :
    (71 : ℚ) < 143 / 2 ∧
    (saturation_pass ⟨1, 0, 0, 143 / 2, 1, 1, 128, [], 0, 0⟩).freq = 143 / 2 ∧
    (saturation_pass ⟨1, 0, 0, 143 / 2, 1, 1, 128, [], 0, 0⟩).freq ≠ 71 := by
  decide

/-- C6 amended: for sampleCount ∈ {16, 32, 64, 128}, every requested
frequency — integer or fractional — whose `(uint16_t)` truncation strictly
exceeds freq_max / (sampleCount/16) (for 128 samples, the bound 568/8 = 71)
is clamped by the saturation pass to exactly that bound; the guard tests
only the truncated value, which is why 71.5 escapes while 72.5 is clamped. -/
theorem freq_clamp_bound (s : SysState) (n : ℕ)
    (hn : n = 16 ∨ n = 32 ∨ n = 64 ∨ n = 128)
    (hsamples : s.samples = (n : ℚ))
    (hk : ((freq_max / (n / 16) : ℕ) : ℤ) < truncQ s.freq)
    (hk2 : truncQ s.freq ≤ 65535) :
    (saturation_pass s).freq = ((freq_max / (n / 16) : ℕ) : ℚ) := by
  rw [saturation_pass, sat_samples_freq, sat_offset_freq, sat_amplitude_freq]
  unfold sat_freq
  rw [hsamples, truncQ_natCast, Int.toNat_natCast]
  simp only [Nat.shiftRight_eq_div_pow]
  rcases hn with rfl | rfl | rfl | rfl <;>
  · norm_num [freq_max] at hk ⊢
    rw [if_pos hk]

/-- Witness for C6 amended: the fractional frequency 72.5 at 128 samples
has truncation 72 > 71 and is clamped to 568 / 8 = 71. -/
theorem freq_clamp_bound_witness :
    ((128 : ℕ) = 16 ∨ (128 : ℕ) = 32 ∨ (128 : ℕ) = 64 ∨ (128 : ℕ) = 128) ∧
    (SysState.mk 1 0 0 (145 / 2) 1 1 128 [] 0 0).samples = ((128 : ℕ) : ℚ) ∧
    ((freq_max / (128 / 16 : ℕ) : ℕ) : ℤ) <
      truncQ (SysState.mk 1 0 0 (145 / 2) 1 1 128 [] 0 0).freq ∧
    truncQ (SysState.mk 1 0 0 (145 / 2) 1 1 128 [] 0 0).freq ≤ 65535 ∧
    (saturation_pass (SysState.mk 1 0 0 (145 / 2) 1 1 128 [] 0 0)).freq =
      ((freq_max / (128 / 16 : ℕ) : ℕ) : ℚ) :=
  ⟨by decide, by decide, by decide, by decide,
    freq_clamp_bound (SysState.mk 1 0 0 (145 / 2) 1 1 128 [] 0 0) 128
      (by decide) (by decide) (by decide) (by decide)⟩

/-- C9: from state CALCULATING, for every waveform kind and any parameter
values, one loop iteration regenerates the sample buffer from the current
parameters, recomputes the sample interval, and always ends with the mode
set to RUNNING and the field counter SW2_state reset to 0. -/
theorem calculating_transition (temp_of : ℕ → ℚ → ℚ → ℕ → ℕ → ℤ) (s : SysState)
    (h1 : s.SW1_state = CALCULATING) (h2 : s.waveform < 4) :
    (loop_calculating temp_of s).SW1_state = RUNNING ∧
    (loop_calculating temp_of s).SW2_state = 0 ∧
    (loop_calculating temp_of s).wave =
      wave_calc (temp_of s.waveform s.amplitude s.offset (truncQ s.samples).toNat)
        s.wave (truncQ s.samples).toNat ∧
    (loop_calculating temp_of s).sample_interval = update_freq s.freq s.samples := by
  have h : s.waveform = 0 ∨ s.waveform = 1 ∨ s.waveform = 2 ∨ s.waveform = 3 := by
    omega
  rcases h with h | h | h | h <;>
    simp [loop_calculating, h, SINE, RAMP, SQUARE, DC, RUNNING]

/-- A trivial concrete per-sample computation used by the C9 witness. -/
def temp_zero : ℕ → ℚ → ℚ → ℕ → ℕ → ℤ := fun _ _ _ _ _ => 0

/-- A concrete CALCULATING state used by the C9 witness. -/
def state_calc : SysState :=
  ⟨2, 5, 0, 50, 4975 / 1000, 4975 / 2000, 32, List.replicate 128 0, 0, 0⟩

/-- Witness for C9 on a concrete sine-kind state with 32 samples. -/
theorem calculating_transition_witness :
    state_calc.SW1_state = CALCULATING ∧ state_calc.waveform < 4 ∧
    ((loop_calculating temp_zero state_calc).SW1_state = RUNNING ∧
      (loop_calculating temp_zero state_calc).SW2_state = 0 ∧
      (loop_calculating temp_zero state_calc).wave =
        wave_calc (temp_zero state_calc.waveform state_calc.amplitude state_calc.offset
          (truncQ state_calc.samples).toNat) state_calc.wave
          (truncQ state_calc.samples).toNat ∧
      (loop_calculating temp_zero state_calc).sample_interval =
        update_freq state_calc.freq state_calc.samples) :=
  ⟨by decide, by decide, calculating_transition temp_zero state_calc (by decide) (by decide)⟩

end MiniWaveGen
